import Mathlib

/-!
Shallow embedding of the pipeline/status-tracking core of the
BA-document-generator repository (FastAPI + agents), together with proofs
about its behaviour.

The embedding follows the Python source:
  * `src/models/database.py`     — JSON key-value ledger, processing-status
                                   writes, documentation storage;
  * `src/main.py`                — the background pipeline orchestrator
                                   `process_media_file`;
  * `src/agents/file_upload_agent.py`, `media_processing_agent.py`,
    `vector_storage_agent.py`, `documentation_agent.py` — the per-stage
    agents and the content validator / generation retry loop.

External effects (file system, FFmpeg, Whisper, the LLM provider, PDF
rendering, wall-clock timestamps) enter the model as explicit oracle
parameters; every status write and every call to an external capability is
recorded in an event trace.  Numeric scores that Python computes in float
arithmetic are modelled in exact rational arithmetic (`ℚ`).
-/

/-- Python truthiness of an `Optional[str]` value: `None` and `""` are falsy,
every other string is truthy. -/
def strTruthy : Option String → Bool
  | none => false
  | some s => s ≠ ""

/-- One stored status document, i.e. the JSON object kept under the file id in
`data/status.json`.  Keys that a given writer may leave absent are modelled
with `Option` (`none` = key absent). -/
structure StatusRecord where
  file_id : String
  status : String
  progress : Int
  current_stage : String
  /-- value of the `updated_at` key when present (written by the effective
  `update_processing_status` at `database.py:274`) -/
  updated_at : Option String := none
  /-- value of the `update_time` key when present (written only by the
  shadowed `update_processing_status` at `database.py:210`) -/
  update_time : Option String := none
  /-- value of the `start_time` key when present (written only by the
  shadowed `update_processing_status` at `database.py:210`) -/
  start_time : Option String := none
  /-- value of the `error` key when present -/
  error : Option String := none
deriving Repr, DecidableEq

/-- `JSONDatabase.set`: later writes win.  The store is modelled as an
association list where a write prepends its pair; `dbGet` reads the most
recent binding, which matches read-after-write on the JSON dict. -/
def dbSet {α : Type} (db : List (String × α)) (key : String) (value : α) :
    List (String × α) :=
  (key, value) :: db

/-- `JSONDatabase.get`: the most recently written value for `key`, if any. -/
def dbGet {α : Type} (db : List (String × α)) (key : String) : Option α :=
  db.lookup key

/-- The effective `update_processing_status` (`database.py:274`): Python keeps
only the later of the two module-level definitions of this name.  It builds a
fresh record containing `file_id`, `status`, `progress`, `current_stage`,
`updated_at`, and `error` only when the argument is truthy; it never reads the
prior record, so no `start_time` (or `update_time`) key is ever stored. -/
def updateProcessingStatus (db : List (String × StatusRecord)) (now : String)
    (file_id status : String) (progress : Int) (current_stage : String)
    (error : Option String) : List (String × StatusRecord) :=
  let status_data : StatusRecord :=
    { file_id := file_id
      status := status
      progress := progress
      current_stage := current_stage
      updated_at := some now
      error := if strTruthy error then error else none }
  dbSet db file_id status_data

/-- The shadowed first `update_processing_status` (`database.py:210`), kept
here for comparison: it reads the existing record (or starts from `{}`),
overwrites the mutable fields plus `update_time`, sets `error` only when
truthy (leaving a stale `error` in place otherwise), and sets `start_time`
only when the key is absent.  Because the module later rebinds the same name,
this definition is dead code in the running program. -/
def updateProcessingStatusShadowed (db : List (String × StatusRecord))
    (now : String) (file_id status : String) (progress : Int)
    (current_stage : String) (error : Option String) :
    List (String × StatusRecord) :=
  let current : StatusRecord :=
    (dbGet db file_id).getD
      { file_id := file_id, status := "", progress := 0, current_stage := "" }
  let c1 : StatusRecord :=
    { current with
      file_id := file_id
      status := status
      progress := progress
      current_stage := current_stage
      update_time := some now }
  let c2 : StatusRecord := if strTruthy error then { c1 with error := error } else c1
  let c3 : StatusRecord :=
    if c2.start_time = none then { c2 with start_time := some now } else c2
  dbSet db file_id c3

/-- `get_processing_status` (`database.py:298`). -/
def getProcessingStatus (db : List (String × StatusRecord)) (file_id : String) :
    Option StatusRecord :=
  dbGet db file_id

/-- The shadowed definition does satisfy the spec: the first write creates the
record with `start_time = now`, and a subsequent write preserves it. -/
theorem shadowed_update_preserves_start_time (t0 t1 fid : String) :
    (getProcessingStatus
      (updateProcessingStatusShadowed
        (updateProcessingStatusShadowed [] t0 fid "processing" 10 "validation" none)
        t1 fid "processing" 25 "transcription" none) fid).map
          StatusRecord.start_time = some (some t0) := by
  simp [updateProcessingStatusShadowed, getProcessingStatus, dbGet, dbSet, strTruthy]

/-- C2: for every `file_id`, the first `update_processing_status` call is
claimed to create the status record with `start_time` set at that moment and
later calls to preserve it.  The running code does neither: the duplicate
definition at `database.py:274` shadows the `start_time`-preserving one at
`database.py:210`, and the effective writer stores a fresh record with no
`start_time` key at all.  Evaluated here on a first and a second write for
file `f1`: after both calls the stored record exists but its `start_time`
key is absent (`none`), and already after the first call it is absent. -/
theorem C2_update_status_drops_start_time :
    (getProcessingStatus
      (updateProcessingStatus [] "t0" "f1" "processing" 10 "validation" none)
      "f1").map StatusRecord.start_time = some none ∧
    (getProcessingStatus
      (updateProcessingStatus
        (updateProcessingStatus [] "t0" "f1" "processing" 10 "validation" none)
        "t1" "f1" "processing" 25 "transcription" none)
      "f1").map StatusRecord.start_time = some none := by
  constructor <;> rfl

/-- A stored documentation object (`documentation_agent.py:461`).  The keys
that route through the ledger (`documentation_id`, `file_id`) and the payload
fields the claims speak about are modelled; the remaining metadata keys
(`generated_at`, metrics, ...) do not influence storage or retrieval and are
not needed by any claim. -/
structure DocumentationRecord where
  documentation_id : String
  file_id : String
  title : String := ""
  content : String := ""
  pdf_path : Option String := none
deriving Repr, DecidableEq

/-- A value held in the `documentation` namespace of the ledger: either a whole
documentation object (under its `documentation_id`) or a bare documentation id
(under the `file_<file_id>` index key). -/
inductive DocValue where
  | record (d : DocumentationRecord)
  | docId (s : String)
deriving Repr, DecidableEq

/-- `store_documentation` (`database.py:172`): stores the record under its
`documentation_id` and then indexes `file_<file_id> ↦ documentation_id`. -/
def store_documentation (db : List (String × DocValue))
    (documentation : DocumentationRecord) : List (String × DocValue) :=
  dbSet (dbSet db documentation.documentation_id (.record documentation))
    ("file_" ++ documentation.file_id) (.docId documentation.documentation_id)

/-- `get_documentation` (`database.py:183`): looks up the id stored under the
`file_<file_id>` index key; when that value is a truthy string it is used as
the key for the record lookup.  (If the index key held a whole record, the
Python code would try to use a dict as a key and fail; that branch, and a
second lookup that yields another bare id, are modelled as `none`.) -/
def get_documentation (db : List (String × DocValue)) (file_id : String) :
    Option DocumentationRecord :=
  match dbGet db ("file_" ++ file_id) with
  | some (.docId doc_id) =>
      if doc_id ≠ "" then
        match dbGet db doc_id with
        | some (.record d) => some d
        | _ => none
      else none
  | _ => none

/-- Running N successive generation requests for one file stores each produced
record in turn (`store_documentation` is the only ledger write per request). -/
def storeAll (db : List (String × DocValue))
    (docs : List DocumentationRecord) : List (String × DocValue) :=
  docs.foldl store_documentation db

/-- C7: after N successive documentation-generation requests for the same
`file_id`, retrieving documentation by that `file_id` returns exactly one
`DocumentationRecord`, namely the one stored by the Nth (most recent) request:
regeneration redirects the `file_<file_id>` index to the newest record.  (The
`documentation_id` of the last record must be a usable ledger key: non-empty
and distinct from the index key `file_<file_id>`, which holds for every id the
generator mints, since those have the shape `doc_<8 hex chars>`.) -/
theorem C7_latest_documentation_wins (db : List (String × DocValue))
    (docs : List DocumentationRecord) (fid : String) (d : DocumentationRecord)
    (hlast : docs.getLast? = some d)
    (hfid : ∀ doc ∈ docs, doc.file_id = fid)
    (hne : d.documentation_id ≠ "")
    (hnk : d.documentation_id ≠ "file_" ++ fid) :
    get_documentation (storeAll db docs) fid = some d := by
  have hmem : d ∈ docs.getLast? := by rw [hlast]; rfl
  have hsplit : docs = docs.dropLast ++ [d] :=
    (List.dropLast_append_getLast? d hmem).symm
  have hdf : d.file_id = fid := by
    refine hfid d ?_
    rw [hsplit]
    exact List.mem_append_right _ (List.mem_singleton_self d)
  have hbeq : (d.documentation_id == "file_" ++ fid) = false :=
    beq_eq_false_iff_ne.mpr hnk
  rw [hsplit]
  unfold storeAll
  rw [List.foldl_append]
  simp only [List.foldl_cons, List.foldl_nil]
  unfold store_documentation get_documentation
  rw [hdf]
  simp [dbGet, dbSet, List.lookup, hne, hbeq]

/-- Concrete instance: two successive generation requests for file `f1`; the
record retrievable afterwards is the second one. -/
theorem C7_latest_documentation_wins_witness :
    get_documentation
      (storeAll []
        [{ documentation_id := "doc_1", file_id := "f1", content := "v1" },
         { documentation_id := "doc_2", file_id := "f1", content := "v2" }]) "f1"
      = some { documentation_id := "doc_2", file_id := "f1", content := "v2" } :=
  C7_latest_documentation_wins []
    [{ documentation_id := "doc_1", file_id := "f1", content := "v1" },
     { documentation_id := "doc_2", file_id := "f1", content := "v2" }]
    "f1" { documentation_id := "doc_2", file_id := "f1", content := "v2" }
    (by decide) (by decide) (by decide) (by decide)

/-- Python text is modelled as a list of characters (`str` values that the
validator and the stage guards inspect character by character).  Identifier-
and message-like strings stay `String`.  Whitespace is the ASCII whitespace
Python and Lean agree on. -/
def isSpace (c : Char) : Bool := c.isWhitespace

/-- Helper for `str.strip()`: drop leading whitespace. -/
def dropLeadingWs : List Char → List Char
  | [] => []
  | c :: cs => if isSpace c then dropLeadingWs cs else c :: cs

/-- Helper for `str.strip()`: drop trailing whitespace. -/
def dropTrailingWs (s : List Char) : List Char :=
  (dropLeadingWs s.reverse).reverse

/-- Python `str.strip()`. -/
def pyStrip (s : List Char) : List Char :=
  dropLeadingWs (dropTrailingWs s)

/-- Helper for `str.split()`: accumulate the current word (reversed) while
scanning; emit it at each whitespace run and at the end. -/
def splitWsAux : List Char → List Char → List (List Char)
  | [], acc => if acc = [] then [] else [acc.reverse]
  | c :: cs, acc =>
      if isSpace c then
        (if acc = [] then splitWsAux cs [] else acc.reverse :: splitWsAux cs [])
      else splitWsAux cs (c :: acc)

/-- Python `str.split()` with no arguments: the maximal whitespace-free words,
in order, with no empty words. -/
def pySplitWs (s : List Char) : List (List Char) := splitWsAux s []

/-- Python `str.lower()` (ASCII case folding suffices for the section names
the validator compares). -/
def pyToLower (s : List Char) : List Char := s.map Char.toLower

/-- Sequence prefix test used to implement substring containment. -/
def startsWithSeq : List Char → List Char → Bool
  | [], _ => true
  | _ :: _, [] => false
  | a :: as, b :: bs => if a = b then startsWithSeq as bs else false

/-- Substring containment on character lists. -/
def containsSeq (needle : List Char) : List Char → Bool
  | [] => startsWithSeq needle []
  | b :: bs => startsWithSeq needle (b :: bs) || containsSeq needle bs

/-- Python `needle in haystack` for strings. -/
def pyInStr (needle haystack : List Char) : Bool := containsSeq needle haystack

/-- Documentation complexity levels (`documentation_agent.py:44`). -/
inductive DocumentationLevel where
  | SIMPLE
  | INTERMEDIATE
  | ADVANCED
deriving Repr, DecidableEq

/-- Required section headings shared by all levels
(`DocumentationValidator._get_required_sections`, `documentation_agent.py:372`). -/
def baseSections : List (List Char) :=
  ["Executive Summary".toList, "Business Objectives".toList,
   "Requirements".toList, "Implementation".toList]

/-- `DocumentationValidator._get_required_sections` (`documentation_agent.py:372`). -/
def requiredSections : DocumentationLevel → List (List Char)
  | .SIMPLE => baseSections
  | .INTERMEDIATE =>
      baseSections ++
        ["Current State Analysis".toList, "Solution Architecture".toList,
         "Risk Assessment".toList]
  | .ADVANCED =>
      baseSections ++
        ["Strategic Analysis".toList, "Investment Analysis".toList,
         "Governance Framework".toList, "Risk Management".toList]

/-- Expected word-count ranges per level (`documentation_agent.py:357`). -/
def expectedWordRange : DocumentationLevel → Nat × Nat
  | .SIMPLE => (1500, 3000)
  | .INTERMEDIATE => (4000, 8000)
  | .ADVANCED => (6000, 12000)

/-- `DocumentationValidator.validate_content` (`documentation_agent.py:327`):
returns `(is_valid, quality_score, issues)`.  Scores are modelled in `ℚ`
(Python computes them in float arithmetic). -/
def validate_content (content : List Char) (level : DocumentationLevel) :
    Bool × ℚ × List String :=
  if content = [] ∨ (pyStrip content).length < 100 then
    (false, 0, ["Content too short or empty"])
  else
    let required := requiredSections level
    let found_sections :=
      (required.filter fun s => pyInStr (pyToLower s) (pyToLower content)).length
    let issues :=
      (required.filter fun s => ! pyInStr (pyToLower s) (pyToLower content)).map
        fun s => "Missing section: " ++ String.mk s
    let section_score : ℚ := ((found_sections : ℚ) / (required.length : ℚ)) * 100
    let word_count := (pySplitWs content).length
    let bounds := expectedWordRange level
    let word_score : ℚ :=
      if bounds.1 ≤ word_count ∧ word_count ≤ bounds.2 then 100
      else max 0 (100 - |(word_count : ℚ) - (bounds.1 : ℚ)| / (bounds.1 : ℚ) * 50)
    let quality_score := (section_score + word_score) / 2
    (decide ((70 : ℚ) ≤ quality_score), quality_score, issues)

/-- The section score exactly as the claim words it, for comparison with
`validate_content`: `100 × (found sections / required sections)` by
case-insensitive substring containment. -/
def claimSectionScore (content : List Char) (level : DocumentationLevel) : ℚ :=
  (((requiredSections level).filter
      fun s => pyInStr (pyToLower s) (pyToLower content)).length : ℚ) /
    ((requiredSections level).length : ℚ) * 100

/-- The word score exactly as the claim words it: 100 inside the expected
range, otherwise `max(0, 100 − |word_count − min|/min × 50)`. -/
def claimWordScore (content : List Char) (level : DocumentationLevel) : ℚ :=
  let word_count := (pySplitWs content).length
  let bounds := expectedWordRange level
  if bounds.1 ≤ word_count ∧ word_count ≤ bounds.2 then 100
  else max 0 (100 - |(word_count : ℚ) - (bounds.1 : ℚ)| / (bounds.1 : ℚ) * 50)

/-- The quality score exactly as the claim words it. -/
def claimQualityScore (content : List Char) (level : DocumentationLevel) : ℚ :=
  (claimSectionScore content level + claimWordScore content level) / 2

/-- The issues list exactly as the claim implies: one entry per missing
required section. -/
def claimIssues (content : List Char) (level : DocumentationLevel) : List String :=
  ((requiredSections level).filter
      fun s => ! pyInStr (pyToLower s) (pyToLower content)).map
    fun s => "Missing section: " ++ String.mk s

/-- Under the guard actually used by the code (at least 100 characters after
stripping), `validate_content` computes exactly the claimed scoring formula. -/
theorem validate_content_formula (content : List Char) (level : DocumentationLevel)
    (h : 100 ≤ (pyStrip content).length) :
    validate_content content level =
      (decide ((70 : ℚ) ≤ claimQualityScore content level),
       claimQualityScore content level, claimIssues content level) := by
  unfold validate_content
  rw [if_neg]
  · rfl
  · rintro (hc | hlt)
    · subst hc
      simp [pyStrip, dropTrailingWs, dropLeadingWs] at h
    · omega

/-- With every Simple-level section heading present, a stripped length past the
gate, and a word count inside [1500, 3000], the validator returns a perfect
result. -/
theorem validate_content_simple_perfect (content : List Char)
    (hsec : ∀ s ∈ requiredSections .SIMPLE,
      pyInStr (pyToLower s) (pyToLower content) = true)
    (hlen : 100 ≤ (pyStrip content).length)
    (hwc1 : 1500 ≤ (pySplitWs content).length)
    (hwc2 : (pySplitWs content).length ≤ 3000) :
    validate_content content .SIMPLE = (true, 100, []) := by
  rw [validate_content_formula content .SIMPLE hlen]
  have hfilter : (requiredSections .SIMPLE).filter
      (fun s => pyInStr (pyToLower s) (pyToLower content)) = requiredSections .SIMPLE :=
    List.filter_eq_self.mpr hsec
  have hmiss : (requiredSections .SIMPLE).filter
      (fun s => ! pyInStr (pyToLower s) (pyToLower content)) = [] :=
    List.filter_eq_nil_iff.mpr (by
      intro s hs
      simp [hsec s hs])
  have hsection : claimSectionScore content .SIMPLE = 100 := by
    unfold claimSectionScore
    rw [hfilter]
    norm_num [requiredSections, baseSections]
  have hword : claimWordScore content .SIMPLE = 100 := by
    unfold claimWordScore
    rw [if_pos]
    exact ⟨hwc1, hwc2⟩
  have hq : claimQualityScore content .SIMPLE = 100 := by
    unfold claimQualityScore
    rw [hsection, hword]
    norm_num
  have hiss : claimIssues content .SIMPLE = [] := by
    unfold claimIssues
    rw [hmiss]
    rfl
  rw [hq, hiss]
  norm_num

/-- A whitespace-padded refutation input: 100 spaces followed by `ab`.  Its raw
length is 102 but its stripped length is 2. -/
def shortPadded : List Char := List.replicate 100 ' ' ++ ['a', 'b']

/-- C5 (counterexample): the claim quantifies over "content of at least 100
characters", but the code gates on the length after `str.strip()`.  For 100
spaces followed by `ab`, the raw length is 102, yet `validate_content` takes
the too-short branch and returns quality 0 with the fixed issue message, which
differs from the claimed formula value (1501/60 ≈ 25.02 with four
missing-section issues). -/
theorem C5_counterexample :
    100 ≤ shortPadded.length ∧
    (validate_content shortPadded .SIMPLE).2.1 ≠
      claimQualityScore shortPadded .SIMPLE := by
  refine ⟨by decide, ?_⟩
  have hcode : (validate_content shortPadded .SIMPLE).2.1 = 0 := by rfl
  have hfilter : (requiredSections .SIMPLE).filter
      (fun s => pyInStr (pyToLower s) (pyToLower shortPadded)) = [] := by decide
  have hwc : (pySplitWs shortPadded).length = 1 := by decide
  have hclaim : claimQualityScore shortPadded .SIMPLE = 1501 / 60 := by
    unfold claimQualityScore claimSectionScore claimWordScore
    rw [hfilter, hwc]
    simp only [expectedWordRange, requiredSections, baseSections]
    rw [if_neg (by norm_num)]
    push_cast
    rw [show ((1 : ℚ) - 1500) = -1499 by norm_num, abs_neg,
      abs_of_nonneg (by norm_num : (0 : ℚ) ≤ 1499)]
    rw [max_eq_right (by norm_num : (0 : ℚ) ≤ 100 - 1499 / 1500 * 50)]
    norm_num
  rw [hcode, hclaim]
  norm_num

/-- C5 (amended): `DocumentationValidator.validate_content` computes the
claimed scoring formula for content whose *stripped* length is at least 100
(the code gates on `len(content.strip()) < 100`, not the raw length):
section score 100 × found/required by case-insensitive containment, word
score 100 inside the level range and otherwise max(0, 100 − |wc−min|/min×50),
quality = mean of the two, valid iff quality ≥ 70, issues = one entry per
missing section; and in particular content containing every Simple-level
heading with a word count in [1500, 3000] yields `(True, 100.0, [])`. -/
theorem C5_validator_scoring :
    (∀ (content : List Char) (level : DocumentationLevel),
        100 ≤ (pyStrip content).length →
        validate_content content level =
          (decide ((70 : ℚ) ≤ claimQualityScore content level),
           claimQualityScore content level, claimIssues content level)) ∧
    (∀ content : List Char,
        (∀ s ∈ requiredSections .SIMPLE,
            pyInStr (pyToLower s) (pyToLower content) = true) →
        100 ≤ (pyStrip content).length →
        1500 ≤ (pySplitWs content).length →
        (pySplitWs content).length ≤ 3000 →
        validate_content content .SIMPLE = (true, 100, [])) :=
  ⟨validate_content_formula, validate_content_simple_perfect⟩

/-- Joins words with single spaces; scaffolding used to build concrete
validator inputs whose word count is provably large. -/
def joinWords : List (List Char) → List Char
  | [] => []
  | [w] => w
  | w :: w2 :: ws => w ++ ' ' :: joinWords (w2 :: ws)

theorem startsWithSeq_append (n : List Char) :
    ∀ h t : List Char, startsWithSeq n h = true → startsWithSeq n (h ++ t) = true := by
  induction n with
  | nil => intro h t _; rfl
  | cons a as ih =>
    intro h t hh
    cases h with
    | nil => simp [startsWithSeq] at hh
    | cons b bs =>
      rw [List.cons_append]
      unfold startsWithSeq at hh ⊢
      by_cases hab : a = b
      · rw [if_pos hab] at hh ⊢
        exact ih bs t hh
      · rw [if_neg hab] at hh
        exact absurd hh (by simp)

theorem containsSeq_nil_left : ∀ t : List Char, containsSeq [] t = true
  | [] => rfl
  | b :: bs => by simp [containsSeq, startsWithSeq]

theorem containsSeq_append_left :
    ∀ h n t : List Char, containsSeq n h = true → containsSeq n (h ++ t) = true := by
  intro h
  induction h with
  | nil =>
    intro n t hh
    cases n with
    | nil => exact containsSeq_nil_left t
    | cons a as =>
      unfold containsSeq startsWithSeq at hh
      exact absurd hh (by simp)
  | cons b bs ih =>
    intro n t hh
    unfold containsSeq at hh
    rw [Bool.or_eq_true] at hh
    rw [List.cons_append]
    unfold containsSeq
    rw [Bool.or_eq_true]
    rcases hh with hs | hc
    · exact Or.inl (startsWithSeq_append n (b :: bs) t hs)
    · exact Or.inr (ih n t hc)

theorem joinWords_append :
    ∀ xs ys : List (List Char), xs ≠ [] → ys ≠ [] →
      joinWords (xs ++ ys) = joinWords xs ++ ' ' :: joinWords ys := by
  intro xs
  induction xs with
  | nil => intro ys h; exact absurd rfl h
  | cons x xs ih =>
    intro ys _ hy
    cases xs with
    | nil =>
      cases ys with
      | nil => exact absurd rfl hy
      | cons y ys2 => simp [joinWords]
    | cons x2 xs2 =>
      have h1 : joinWords ((x :: x2 :: xs2) ++ ys)
          = x ++ ' ' :: joinWords ((x2 :: xs2) ++ ys) := by
        simp [joinWords]
      rw [h1, ih ys (by simp) hy]
      simp [joinWords]

theorem splitWsAux_word :
    ∀ w cs acc : List Char, (∀ c ∈ w, isSpace c = false) →
      splitWsAux (w ++ cs) acc = splitWsAux cs (w.reverse ++ acc) := by
  intro w
  induction w with
  | nil => intro cs acc _; simp
  | cons c w2 ih =>
    intro cs acc hw
    have hc : isSpace c = false := hw c (List.mem_cons_self c w2)
    rw [List.cons_append]
    rw [show splitWsAux (c :: (w2 ++ cs)) acc
          = splitWsAux (w2 ++ cs) (c :: acc) from by simp [splitWsAux, hc]]
    rw [ih cs (c :: acc) fun d hd => hw d (List.mem_cons_of_mem c hd)]
    rw [List.reverse_cons, List.append_assoc, List.singleton_append]

theorem splitWsAux_word_nil (w acc : List Char) (hw : ∀ c ∈ w, isSpace c = false) :
    splitWsAux w acc = splitWsAux [] (w.reverse ++ acc) := by
  have h := splitWsAux_word w [] acc hw
  simpa using h

theorem pySplitWs_joinWords :
    ∀ ws : List (List Char),
      (∀ w ∈ ws, w ≠ [] ∧ ∀ c ∈ w, isSpace c = false) →
      pySplitWs (joinWords ws) = ws := by
  intro ws
  induction ws with
  | nil => intro _; rfl
  | cons w ws2 ih =>
    intro h
    obtain ⟨hw_ne, hw_sp⟩ := h w (List.mem_cons_self w ws2)
    cases ws2 with
    | nil =>
      show splitWsAux (joinWords [w]) [] = [w]
      rw [show joinWords [w] = w from rfl]
      rw [splitWsAux_word_nil w [] hw_sp, List.append_nil]
      unfold splitWsAux
      rw [if_neg (by simpa using hw_ne)]
      rw [List.reverse_reverse]
    | cons w2 ws3 =>
      show splitWsAux (joinWords (w :: w2 :: ws3)) [] = w :: w2 :: ws3
      rw [show joinWords (w :: w2 :: ws3)
            = w ++ ' ' :: joinWords (w2 :: ws3) from by simp [joinWords]]
      rw [splitWsAux_word w _ [] hw_sp, List.append_nil]
      unfold splitWsAux
      simp only [show isSpace ' ' = true from rfl, if_true]
      rw [if_neg (by simpa using hw_ne)]
      rw [List.reverse_reverse]
      exact congrArg (w :: ·) (ih fun w3 hw3 => h w3 (List.mem_cons_of_mem w hw3))

theorem joinWords_replicate_length :
    ∀ n : Nat, (joinWords (List.replicate (n + 1) (['a'] : List Char))).length
      = 2 * n + 1 := by
  intro n
  induction n with
  | zero => rfl
  | succ m ih =>
    rw [show List.replicate (m + 2) (['a'] : List Char)
          = ['a'] :: ['a'] :: List.replicate m ['a'] from by
        simp [List.replicate_succ]]
    rw [show joinWords (['a'] :: ['a'] :: List.replicate m (['a'] : List Char))
          = ['a'] ++ ' ' :: joinWords (['a'] :: List.replicate m ['a']) from by
        simp [joinWords]]
    rw [show (['a'] : List Char) :: List.replicate m ['a']
          = List.replicate (m + 1) ['a'] from by simp [List.replicate_succ]]
    simp only [List.length_append, List.length_cons, List.length_nil, ih]
    omega

/-- The words of a concrete Simple-level witness document: the required
headings followed by 1496 filler words. -/
def headWords : List (List Char) :=
  ["Executive".toList, "Summary".toList, "Business".toList,
   "Objectives".toList, "Requirements".toList, "Implementation".toList]

/-- Filler words for the witness document. -/
def fillerWords : List (List Char) := List.replicate 1496 ['a']

/-- A concrete 1502-word document containing every Simple-level heading. -/
def wContent : List Char := joinWords (headWords ++ fillerWords)

theorem wContent_eq :
    wContent = joinWords headWords ++ ' ' :: joinWords fillerWords :=
  joinWords_append headWords fillerWords (by exact List.cons_ne_nil _ _)
    (by exact List.cons_ne_nil _ _)

theorem wContent_words : pySplitWs wContent = headWords ++ fillerWords := by
  apply pySplitWs_joinWords
  intro w hw
  rcases List.mem_append.mp hw with h1 | h2
  · simp only [headWords, List.mem_cons, List.not_mem_nil, or_false] at h1
    rcases h1 with rfl | rfl | rfl | rfl | rfl | rfl <;> exact ⟨by decide, by decide⟩
  · rw [fillerWords] at h2
    have h3 := List.eq_of_mem_replicate h2
    subst h3
    exact ⟨by decide, by decide⟩

theorem headWords_filler_length :
    (headWords ++ fillerWords).length = 1502 := by
  rw [List.length_append]
  rw [show headWords.length = 6 from rfl]
  rw [show fillerWords.length = 1496 from by
    rw [fillerWords]; exact List.length_replicate 1496 ['a']]

theorem wContent_wc_lower : 1500 ≤ (pySplitWs wContent).length := by
  rw [wContent_words, headWords_filler_length]
  omega

theorem wContent_wc_upper : (pySplitWs wContent).length ≤ 3000 := by
  rw [wContent_words, headWords_filler_length]
  omega

theorem wContent_last : ∃ t, wContent.reverse = 'a' :: t := by
  have h1 : headWords ++ fillerWords
      = (headWords ++ List.replicate 1495 (['a'] : List Char)) ++ [['a']] := by
    rw [fillerWords, show (1496 : Nat) = 1495 + 1 from rfl, List.replicate_succ',
      List.append_assoc]
  have h2 : wContent
      = joinWords (headWords ++ List.replicate 1495 ['a']) ++ ' ' :: ['a'] := by
    rw [show wContent = joinWords (headWords ++ fillerWords) from rfl, h1,
      joinWords_append _ _ (by exact List.cons_ne_nil _ _)
        (by exact List.cons_ne_nil _ _)]
    rfl
  refine ⟨' ' :: (joinWords (headWords ++ List.replicate 1495 ['a'])).reverse, ?_⟩
  rw [h2, List.reverse_append]
  rw [show ((' ' : Char) :: ['a']).reverse = ['a', ' '] from by decide]
  rw [List.cons_append, List.cons_append, List.nil_append]

theorem wContent_strip : pyStrip wContent = wContent := by
  obtain ⟨t2, h2⟩ := wContent_last
  have htrail : dropTrailingWs wContent = wContent := by
    unfold dropTrailingWs
    rw [h2]
    rw [show dropLeadingWs ('a' :: t2) = 'a' :: t2 from if_neg (by decide)]
    rw [← h2, List.reverse_reverse]
  have hJH2 : joinWords headWords =
      "Executive Summary Business Objectives Requirements Implementation".toList := by
    decide
  have hhead : ∃ t1, wContent = 'E' :: t1 := by
    refine ⟨"xecutive Summary Business Objectives Requirements Implementation".toList
      ++ ' ' :: joinWords fillerWords, ?_⟩
    rw [wContent_eq, hJH2]
    rw [show "Executive Summary Business Objectives Requirements Implementation".toList
          = 'E' :: "xecutive Summary Business Objectives Requirements Implementation".toList
        from by decide]
    rw [List.cons_append]
  obtain ⟨t1, h1⟩ := hhead
  unfold pyStrip
  rw [htrail, h1]
  exact if_neg (by decide)

theorem wContent_strip_len : 100 ≤ (pyStrip wContent).length := by
  rw [wContent_strip, wContent_eq, List.length_append, List.length_cons]
  have hJH : (joinWords headWords).length = 65 := by decide
  have hJF : (joinWords fillerWords).length = 2991 := by
    rw [fillerWords, show (1496 : Nat) = 1495 + 1 from rfl,
      joinWords_replicate_length 1495]
  rw [hJH, hJF]
  omega

theorem wContent_sections :
    ∀ s ∈ requiredSections .SIMPLE,
      pyInStr (pyToLower s) (pyToLower wContent) = true := by
  have hsplit : pyToLower wContent
      = pyToLower (joinWords headWords)
        ++ pyToLower (' ' :: joinWords fillerWords) := by
    rw [wContent_eq]
    unfold pyToLower
    rw [List.map_append]
  intro s hs
  unfold pyInStr
  rw [hsplit]
  apply containsSeq_append_left
  simp only [requiredSections, baseSections, List.mem_cons,
    List.not_mem_nil, or_false] at hs
  rcases hs with rfl | rfl | rfl | rfl <;> decide

/-- A short refutation-free probe for the formula half of C5: 116 characters
with no leading or trailing whitespace. -/
def probe1 : List Char :=
  ("This candidate document is long enough to pass the minimum length gate " ++
   "but it is missing most required headings.").toList

/-- Concrete instances for both halves of the amended C5: the probe satisfies
the stripped-length gate and gets exactly the claimed formula value, and the
1502-word witness document containing all Simple headings validates as
`(True, 100.0, [])`. -/
theorem C5_validator_scoring_witness :
    (100 ≤ (pyStrip probe1).length ∧
      validate_content probe1 .SIMPLE =
        (decide ((70 : ℚ) ≤ claimQualityScore probe1 .SIMPLE),
         claimQualityScore probe1 .SIMPLE, claimIssues probe1 .SIMPLE)) ∧
    ((∀ s ∈ requiredSections .SIMPLE,
        pyInStr (pyToLower s) (pyToLower wContent) = true) ∧
      100 ≤ (pyStrip wContent).length ∧
      1500 ≤ (pySplitWs wContent).length ∧
      (pySplitWs wContent).length ≤ 3000 ∧
      validate_content wContent .SIMPLE = (true, 100, [])) :=
  ⟨⟨by decide, C5_validator_scoring.1 probe1 .SIMPLE (by decide)⟩,
   ⟨wContent_sections, wContent_strip_len, wContent_wc_lower, wContent_wc_upper,
    C5_validator_scoring.2 wContent wContent_sections wContent_strip_len
      wContent_wc_lower wContent_wc_upper⟩⟩

/-- One call to `update_processing_status` as issued by the pipeline
(arguments only; the ledger effect is replayed separately). -/
structure StatusUpdate where
  file_id : String
  status : String
  progress : Int
  current_stage : String
  error : Option String := none
deriving Repr, DecidableEq

/-- Observable pipeline events, in program order: every status write and every
call to an external capability (validation tool, FFmpeg, the audio tool,
Whisper, transcription storage/retrieval, the LLM provider, the document file
writer, the PDF renderer, the documentation ledger write). -/
inductive Event where
  | statusUpdate (u : StatusUpdate)
  | validateToolCall
  | extractAudioCall
  | audioProcCall
  | transcribeCall
  | storeTranscriptionCall
  | retrieveTranscriptionCall
  | llmCall (attempt : Nat)
  | saveDocFileCall
  | renderPdfCall
  | storeDocCall (documentation_id : String)
deriving Repr, DecidableEq

/-- Result dict of `FileValidationTool._arun` (`file_upload_agent.py:37`):
`valid` plus the `message` key present on failures. -/
structure ValidationResult where
  valid : Bool
  message : Option String := none
deriving Repr, DecidableEq

/-- A generic `{"success": ..., "message": ...}` tool result dict. -/
structure ToolResult where
  success : Bool
  message : Option String := none
deriving Repr, DecidableEq

/-- Result dict of `WhisperTool._arun` / `MediaProcessor.transcribe_audio`:
`success`, the transcription text, and the `message` key on failures.
(`transcribe_audio` returns `success: True` with whatever text Whisper
produced — there is no emptiness check, `media_processor.py:94`.) -/
structure TranscribeResult where
  success : Bool
  transcription : List Char := []
  message : Option String := none
deriving Repr, DecidableEq

/-- Oracle for the external effects inside
`MediaProcessingAgent.process_file` (`media_processing_agent.py:214`). -/
structure MediaOracle where
  fileExists : Bool
  isVideo : Bool
  extract : ToolResult
  audioProc : ToolResult
  transcribe : TranscribeResult
deriving Repr, DecidableEq

/-- `FileUploadAgent.validate_file` (`file_upload_agent.py:181`): writes
processing/20/validation, runs the validation tool, and on an invalid result
writes failed/0/validation with the tool's message. -/
def fileUploadAgent_validate_file (file_id : String) (tool : ValidationResult) :
    ValidationResult × List Event :=
  let ev0 : List Event :=
    [.statusUpdate ⟨file_id, "processing", 20, "validation", none⟩, .validateToolCall]
  if tool.valid then (tool, ev0)
  else
    (tool, ev0 ++ [.statusUpdate ⟨file_id, "failed", 0, "validation", tool.message⟩])

/-- `MediaProcessingAgent.process_file` (`media_processing_agent.py:214`):
status writes 25/extraction, 40/audio_processing, 50/transcription and
completed/60/transcription_completed on success; stage-local failure writes at
0 (missing file), 25 (extraction), 40 (audio processing), 50 (transcription). -/
def mediaAgent_process_file (file_id file_path : String) (o : MediaOracle) :
    TranscribeResult × List Event :=
  let ev0 : List Event := [.statusUpdate ⟨file_id, "processing", 25, "extraction", none⟩]
  if ¬ o.fileExists then
    let msg := "File not found: " ++ file_path
    ({ success := false, message := some msg },
     ev0 ++ [.statusUpdate ⟨file_id, "failed", 0, "extraction", some msg⟩])
  else
    let ext :=
      if o.isVideo then
        (o.extract.success, [Event.extractAudioCall],
         o.extract.message.getD "Failed to extract audio from video")
      else (true, ([] : List Event), "")
    if ¬ ext.1 then
      ({ success := false, message := some ext.2.2 },
       ev0 ++ ext.2.1 ++ [.statusUpdate ⟨file_id, "failed", 25, "extraction", some ext.2.2⟩])
    else
      let ev1 := ev0 ++ ext.2.1 ++
        [.statusUpdate ⟨file_id, "processing", 40, "audio_processing", none⟩, .audioProcCall]
      if ¬ o.audioProc.success then
        let msg := o.audioProc.message.getD "Failed to process audio"
        ({ success := false, message := some msg },
         ev1 ++ [.statusUpdate ⟨file_id, "failed", 40, "audio_processing", some msg⟩])
      else
        let ev2 := ev1 ++
          [.statusUpdate ⟨file_id, "processing", 50, "transcription", none⟩, .transcribeCall]
        if ¬ o.transcribe.success then
          let msg := o.transcribe.message.getD "Failed to transcribe audio"
          ({ success := false, message := some msg },
           ev2 ++ [.statusUpdate ⟨file_id, "failed", 50, "transcription", some msg⟩])
        else
          ({ success := true, transcription := o.transcribe.transcription },
           ev2 ++ [.statusUpdate ⟨file_id, "completed", 60, "transcription_completed", none⟩])

/-- `VectorStorageAgent.store_transcription` (`vector_storage_agent.py:120`):
writes processing/60/storage, calls the storage service, then either
processing/70/vectorization or failed/0/storage. -/
def vectorAgent_store_transcription (file_id : String) (svc : ToolResult) :
    ToolResult × List Event :=
  let ev0 : List Event :=
    [.statusUpdate ⟨file_id, "processing", 60, "storage", none⟩, .storeTranscriptionCall]
  if svc.success then
    ({ success := true }, ev0 ++ [.statusUpdate ⟨file_id, "processing", 70, "vectorization", none⟩])
  else
    let msg := svc.message.getD "Unknown error"
    ({ success := false, message := some msg },
     ev0 ++ [.statusUpdate ⟨file_id, "failed", 0, "storage", some msg⟩])

/-- `DocumentationLevel(doc_level)` construction (`documentation_agent.py:427`):
the three valid member values, `None` otherwise (a `ValueError` in Python). -/
def documentationLevelOfString (s : String) : Option DocumentationLevel :=
  if s = "Simple" then some .SIMPLE
  else if s = "Intermediate" then some .INTERMEDIATE
  else if s = "Advanced" then some .ADVANCED
  else none

/-- The level actually used by `generate_documentation`: an invalid string is
caught and replaced by Intermediate (`documentation_agent.py:426`). -/
def effectiveDocLevel (doc_level : String) : DocumentationLevel :=
  (documentationLevelOfString doc_level).getD .INTERMEDIATE

/-- Stored transcription data as retrieved from local storage; the
`original_filename` metadata key feeds the document title only. -/
structure TransData where
  transcription : List Char
  original_filename : Option String := none
deriving Repr, DecidableEq

/-- Oracle for the external effects inside
`DocumentationGenerator.generate_documentation`: the stored transcription (or
absence), the provider result per attempt, the minted documentation id, a file
save error (or none), and the PDF path (or none after its retries). -/
structure GenOracle where
  stored : Option TransData
  llm : Nat → Except String (List Char)
  docId : String
  saveErr : Option String := none
  pdfPath : Option String := none

/-- Result dict of a generation request. -/
structure GenResult where
  success : Bool
  documentation_id : Option String := none
  quality_score : Option ℚ := none
  message : Option String := none
deriving DecidableEq

/-- `DocumentationGenerator._generate_content_with_retry`
(`documentation_agent.py:554`) over the remaining attempt numbers: each
attempt writes processing/(80+5*attempt)/documentation, calls the provider,
accepts content that is non-empty with more than 100 stripped characters,
converts empty content into a failure, and re-raises the last attempt's
error when no attempts remain.  The empty-list base case is unreachable from
`genContentRetry`. -/
def genRetryGo (file_id : String) (llm : Nat → Except String (List Char)) :
    List Nat → Except String (List Char) × List Event
  | [] => (.error "Generated content is too short or empty", [])
  | attempt :: rest =>
    let evs : List Event :=
      [.statusUpdate ⟨file_id, "processing", ((80 + 5 * attempt : Nat) : Int),
        "documentation", none⟩,
       .llmCall attempt]
    let res : Except String (List Char) :=
      match llm attempt with
      | .ok content =>
          if content ≠ [] ∧ 100 < (pyStrip content).length then .ok content
          else .error "Generated content is too short or empty"
      | .error e => .error e
    match res with
    | .ok c => (.ok c, evs)
    | .error e =>
        if rest = [] then (.error e, evs)
        else
          let next := genRetryGo file_id llm rest
          (next.1, evs ++ next.2)

/-- The retry loop `for attempt in range(max_retries)` entered with
`max_retries = 3` (`documentation_agent.py:409`). -/
def genContentRetry (file_id : String) (llm : Nat → Except String (List Char)) :
    Except String (List Char) × List Event :=
  genRetryGo file_id llm [0, 1, 2]

/-- `DocumentationGenerator.generate_documentation`
(`documentation_agent.py:411`): transcription retrieval with three attempts,
the too-short transcription guard, content generation with retry, advisory
validation, document save, PDF render, ledger store, and the final
completed/100/documentation write; every raised error is caught and turned
into failed/0/documentation with message
`Error generating documentation: <cause>`. -/
def docGenerator_generate (file_id doc_level : String) (o : GenOracle) :
    GenResult × List Event :=
  let level := effectiveDocLevel doc_level
  let fail := fun (msg : String) (evs : List Event) =>
    let full := "Error generating documentation: " ++ msg
    (({ success := false, message := some full } : GenResult),
     evs ++ [Event.statusUpdate ⟨file_id, "failed", 0, "documentation", some full⟩])
  match o.stored with
  | none =>
      fail ("No transcription found for file_id: " ++ file_id)
        [.retrieveTranscriptionCall, .retrieveTranscriptionCall, .retrieveTranscriptionCall]
  | some t =>
      let evs0 : List Event := [.retrieveTranscriptionCall]
      if t.transcription = [] ∨ (pyStrip t.transcription).length < 50 then
        fail "Transcription is too short or empty" evs0
      else
        let gen := genContentRetry file_id o.llm
        match gen.1 with
        | .error e => fail e (evs0 ++ gen.2)
        | .ok content =>
            let v := validate_content content level
            let evs1 := evs0 ++ gen.2 ++ [Event.saveDocFileCall]
            match o.saveErr with
            | some e => fail e evs1
            | none =>
                ({ success := true, documentation_id := some o.docId,
                   quality_score := some v.2.1 },
                 evs1 ++ [Event.renderPdfCall, Event.storeDocCall o.docId,
                   Event.statusUpdate ⟨file_id, "completed", 100, "documentation", none⟩])

/-- `DocumentationAgent.generate_documentation` (`documentation_agent.py:722`):
writes processing/75/documentation, delegates to the generator, and on failure
re-raises, writing failed/0/documentation with message
`Error in generate_documentation: <cause>`. -/
def documentationAgent_generate (file_id doc_level : String) (o : GenOracle) :
    GenResult × List Event :=
  let ev0 : List Event := [.statusUpdate ⟨file_id, "processing", 75, "documentation", none⟩]
  let r := docGenerator_generate file_id doc_level o
  if r.1.success then (r.1, ev0 ++ r.2)
  else
    let msg := "Error in generate_documentation: " ++
      (r.1.message.getD "Failed to generate documentation")
    ({ success := false, message := some msg },
     ev0 ++ r.2 ++ [.statusUpdate ⟨file_id, "failed", 0, "documentation", some msg⟩])

/-- Oracle bundle for one background pipeline run. -/
structure PipelineOracle where
  validation : ValidationResult
  media : MediaOracle
  storageSvc : ToolResult
  mainRetrieve : Option TransData
  gen : GenOracle

/-- The background task `process_media_file` (`main.py:87`), modelled for the
`doc_type = "BRD"` instantiation (the SOW/FRD agents follow the same shape):
status writes 10/validation, 25/transcription, 50/vector_storage,
75/documentation and completed/100/completed, short-circuiting with a
failed write at the stage's entry progress (10, 25, 50, 75) on the first
stage failure. -/
def process_media_file (file_id file_path doc_level : String)
    (o : PipelineOracle) : List Event :=
  let evA : List Event := [.statusUpdate ⟨file_id, "processing", 10, "validation", none⟩]
  let v := fileUploadAgent_validate_file file_id o.validation
  if ¬ v.1.valid then
    evA ++ v.2 ++ [.statusUpdate ⟨file_id, "failed", 10, "validation",
      some (v.1.message.getD "File validation failed")⟩]
  else
    let evB := evA ++ v.2 ++ [.statusUpdate ⟨file_id, "processing", 25, "transcription", none⟩]
    let m := mediaAgent_process_file file_id file_path o.media
    if ¬ m.1.success then
      evB ++ m.2 ++ [.statusUpdate ⟨file_id, "failed", 25, "transcription",
        some (m.1.message.getD "Transcription failed")⟩]
    else
      let evC := evB ++ m.2 ++
        [.statusUpdate ⟨file_id, "processing", 50, "vector_storage", none⟩]
      let s := vectorAgent_store_transcription file_id o.storageSvc
      if ¬ s.1.success then
        evC ++ s.2 ++ [.statusUpdate ⟨file_id, "failed", 50, "vector_storage",
          some (s.1.message.getD "Vector storage failed")⟩]
      else
        let evD := evC ++ s.2 ++
          [.statusUpdate ⟨file_id, "processing", 75, "documentation", none⟩,
           .retrieveTranscriptionCall]
        match o.mainRetrieve with
        | none =>
            evD ++ [.statusUpdate ⟨file_id, "failed", 75, "documentation",
              some "Failed to retrieve transcription for documentation generation"⟩]
        | some _ =>
            let g := documentationAgent_generate file_id doc_level o.gen
            if ¬ g.1.success then
              evD ++ g.2 ++ [.statusUpdate ⟨file_id, "failed", 75, "documentation",
                some (g.1.message.getD "Documentation generation failed")⟩]
            else
              evD ++ g.2 ++ [.statusUpdate ⟨file_id, "completed", 100, "completed", none⟩]

/-- The status writes of an event trace, in order. -/
def statusUpdates (evs : List Event) : List StatusUpdate :=
  evs.filterMap fun e =>
    match e with
    | .statusUpdate u => some u
    | _ => none

/-- The progress values written during a trace, in order. -/
def progressTrace (evs : List Event) : List Int :=
  (statusUpdates evs).map StatusUpdate.progress

/-- Replay of all status writes of a trace through the effective
`update_processing_status` into an initially empty status ledger. -/
def replayStatus (now : String) (evs : List Event) : List (String × StatusRecord) :=
  (statusUpdates evs).foldl
    (fun db u =>
      updateProcessingStatus db now u.file_id u.status u.progress u.current_stage u.error)
    []

/-- Number of calls to the generation provider in a trace. -/
def llmCallCount (evs : List Event) : Nat :=
  (evs.filter fun e =>
    match e with
    | .llmCall _ => true
    | _ => false).length

/-- No stage after validation was invoked: no media work, no storage, no
retrieval, no provider call, no save/render/store. -/
def noDownstreamCalls (evs : List Event) : Bool :=
  evs.all fun e =>
    match e with
    | .extractAudioCall | .audioProcCall | .transcribeCall
    | .storeTranscriptionCall | .retrieveTranscriptionCall | .llmCall _
    | .saveDocFileCall | .renderPdfCall | .storeDocCall _ => false
    | _ => true

/-- Neither the storage stage nor the generation stage was invoked. -/
def noStorageOrGenerationCalls (evs : List Event) : Bool :=
  evs.all fun e =>
    match e with
    | .storeTranscriptionCall | .retrieveTranscriptionCall | .llmCall _
    | .saveDocFileCall | .renderPdfCall | .storeDocCall _ => false
    | _ => true

/-- Whether a documentation record was stored during the trace. -/
def docStoredIn (evs : List Event) : Bool :=
  evs.any fun e =>
    match e with
    | .storeDocCall _ => true
    | _ => false

/-- Adjacent decreasing pairs of a progress sequence. -/
def descents (l : List Int) : List (Int × Int) :=
  (l.zip l.tail).filter fun p => p.2 < p.1

/-- The claimed P1 shape: the written progress values are non-decreasing up to
the first 100. -/
def nondecreasingUntil100 (l : List Int) : Prop :=
  List.Chain' (· ≤ ·) (l.takeWhile (· ≠ 100))

/-- C10: for every `doc_level` string other than `Simple`, `Intermediate`,
`Advanced`, `generate_documentation` does not reject the request: the
`ValueError` of the enum constructor is caught and the Intermediate level is
substituted, so the run proceeds exactly as an Intermediate-level request
would (and can therefore still succeed). -/
theorem C10_invalid_level_defaults (s fid : String) (o : GenOracle)
    (h1 : s ≠ "Simple") (h2 : s ≠ "Intermediate") (h3 : s ≠ "Advanced") :
    effectiveDocLevel s = .INTERMEDIATE ∧
    docGenerator_generate fid s o = docGenerator_generate fid "Intermediate" o := by
  have he : effectiveDocLevel s = .INTERMEDIATE := by
    unfold effectiveDocLevel documentationLevelOfString
    rw [if_neg h1, if_neg h2, if_neg h3]
    rfl
  refine ⟨he, ?_⟩
  unfold docGenerator_generate
  rw [he]
  rfl

/-- A concrete generation oracle on which every external effect succeeds. -/
def wGenOracle : GenOracle :=
  { stored := some
      { transcription :=
          ("The quarterly planning meeting covered project scope, budget, " ++
           "risks and delivery timelines in detail.").toList },
    llm := fun _ => .ok (List.replicate 110 'a'),
    docId := "doc_1" }

/-- Concrete instance of C10 at the invalid level string `Detailed`; the run
equals the Intermediate-level run, and it is in fact successful. -/
theorem C10_invalid_level_defaults_witness :
    (effectiveDocLevel "Detailed" = .INTERMEDIATE ∧
      docGenerator_generate "f1" "Detailed" wGenOracle =
        docGenerator_generate "f1" "Intermediate" wGenOracle) ∧
    (docGenerator_generate "f1" "Detailed" wGenOracle).1.success = true :=
  ⟨C10_invalid_level_defaults "Detailed" "f1" wGenOracle
      (by decide) (by decide) (by decide),
   rfl⟩

/-- C6: if the provider fails on every call, a generation request calls the
provider exactly 3 times (`max_retries = 3`), the surfaced failure message
wraps the third (final) attempt's error, and the request fails. -/
theorem C6_retry_exhaustion (fid lvl : String) (o : GenOracle) (t : TransData)
    (e : Nat → String)
    (hst : o.stored = some t)
    (hne : t.transcription ≠ [])
    (hlen : ¬ (pyStrip t.transcription).length < 50)
    (hllm : ∀ n, o.llm n = .error (e n)) :
    (docGenerator_generate fid lvl o).1.success = false ∧
    (docGenerator_generate fid lvl o).1.message =
      some ("Error generating documentation: " ++ e 2) ∧
    llmCallCount (docGenerator_generate fid lvl o).2 = 3 := by
  have hguard : ¬ (t.transcription = [] ∨ (pyStrip t.transcription).length < 50) :=
    fun h => h.elim hne hlen
  have hretry : genContentRetry fid o.llm =
      (.error (e 2),
       [.statusUpdate ⟨fid, "processing", 80, "documentation", none⟩, .llmCall 0,
        .statusUpdate ⟨fid, "processing", 85, "documentation", none⟩, .llmCall 1,
        .statusUpdate ⟨fid, "processing", 90, "documentation", none⟩, .llmCall 2]) := by
    unfold genContentRetry
    rw [genRetryGo, hllm 0]
    rw [genRetryGo, hllm 1]
    rw [genRetryGo, hllm 2]
    rfl
  unfold docGenerator_generate
  rw [hst]
  simp only [if_neg hguard, hretry, llmCallCount, List.filter, List.length]
  exact ⟨trivial, trivial, trivial⟩

/-- A concrete generation oracle whose provider always fails. -/
def wFailingGenOracle : GenOracle :=
  { stored := some
      { transcription :=
          ("The quarterly planning meeting covered project scope, budget, " ++
           "risks and delivery timelines in detail.").toList },
    llm := fun _ => .error "provider offline",
    docId := "doc_1" }

/-- Concrete instance of C6: a provider that always raises `provider offline`
is called exactly three times and that message is surfaced. -/
theorem C6_retry_exhaustion_witness :
    (docGenerator_generate "f1" "Simple" wFailingGenOracle).1.success = false ∧
    (docGenerator_generate "f1" "Simple" wFailingGenOracle).1.message =
      some ("Error generating documentation: " ++ "provider offline") ∧
    llmCallCount (docGenerator_generate "f1" "Simple" wFailingGenOracle).2 = 3 :=
  C6_retry_exhaustion "f1" "Simple" wFailingGenOracle
    { transcription :=
        ("The quarterly planning meeting covered project scope, budget, " ++
         "risks and delivery timelines in detail.").toList }
    (fun _ => "provider offline") rfl (by decide) (by decide) (fun _ => rfl)

theorem statusUpdates_append (a b : List Event) :
    statusUpdates (a ++ b) = statusUpdates a ++ statusUpdates b := by
  unfold statusUpdates
  exact List.filterMap_append a b _

/-- After replaying a trace whose status writes all target `fid`, the stored
record is exactly the effective-`update_processing_status` image of the last
write. -/
theorem replay_lookup_last (now fid : String) (evs : List Event) (u : StatusUpdate)
    (h : (statusUpdates evs).getLast? = some u) (hfid : u.file_id = fid) :
    getProcessingStatus (replayStatus now evs) fid =
      some { file_id := fid, status := u.status, progress := u.progress,
             current_stage := u.current_stage, updated_at := some now,
             error := if strTruthy u.error then u.error else none } := by
  have hmem : u ∈ (statusUpdates evs).getLast? := by rw [h]; rfl
  have hsplit : statusUpdates evs = (statusUpdates evs).dropLast ++ [u] :=
    (List.dropLast_append_getLast? u hmem).symm
  unfold replayStatus getProcessingStatus
  rw [hsplit, List.foldl_append]
  simp only [List.foldl_cons, List.foldl_nil]
  unfold updateProcessingStatus dbSet dbGet
  rw [hfid]
  simp [List.lookup]

/-- C8: when file validation fails, the run stops: no downstream capability
(media extraction, audio processing, transcription, storage, retrieval,
generation, rendering, document store) is invoked, and the final status record
is `failed` at the validation progress marker 10. -/
theorem C8_validation_failure_stops (fid fp lvl now : String) (o : PipelineOracle)
    (hv : o.validation.valid = false) :
    noDownstreamCalls (process_media_file fid fp lvl o) = true ∧
    ∃ r, getProcessingStatus (replayStatus now (process_media_file fid fp lvl o)) fid
        = some r ∧
      r.status = "failed" ∧ r.progress = 10 ∧ r.current_stage = "validation" := by
  have htrace : process_media_file fid fp lvl o =
      [.statusUpdate ⟨fid, "processing", 10, "validation", none⟩,
       .statusUpdate ⟨fid, "processing", 20, "validation", none⟩, .validateToolCall,
       .statusUpdate ⟨fid, "failed", 0, "validation", o.validation.message⟩,
       .statusUpdate ⟨fid, "failed", 10, "validation",
         some (o.validation.message.getD "File validation failed")⟩] := by
    unfold process_media_file fileUploadAgent_validate_file
    simp [hv]
  rw [htrace]
  refine ⟨rfl, ?_⟩
  refine ⟨_, replay_lookup_last now fid _
    ⟨fid, "failed", 10, "validation",
      some (o.validation.message.getD "File validation failed")⟩ rfl rfl,
    rfl, rfl, rfl⟩

/-- A concrete pipeline oracle whose validation tool rejects the file. -/
def wInvalidOracle : PipelineOracle :=
  { validation := { valid := false, message := some "Invalid file type" },
    media := { fileExists := true, isVideo := false,
               extract := { success := true }, audioProc := { success := true },
               transcribe := { success := true } },
    storageSvc := { success := true },
    mainRetrieve := none,
    gen := wGenOracle }

/-- Concrete instance of C8 on a rejected upload. -/
theorem C8_validation_failure_stops_witness :
    noDownstreamCalls (process_media_file "f1" "/tmp/f1.mp3" "Simple" wInvalidOracle)
      = true ∧
    ∃ r, getProcessingStatus
        (replayStatus "t0" (process_media_file "f1" "/tmp/f1.mp3" "Simple" wInvalidOracle))
        "f1" = some r ∧
      r.status = "failed" ∧ r.progress = 10 ∧ r.current_stage = "validation" :=
  C8_validation_failure_stops "f1" "/tmp/f1.mp3" "Simple" "t0" wInvalidOracle rfl

/-- A media oracle in which every tool succeeds but Whisper returns an empty
transcript as a successful result (nothing in `transcribe_audio` or
`process_file` checks for emptiness). -/
def wEmptyTranscriptOracle : MediaOracle :=
  { fileExists := true, isVideo := false,
    extract := { success := true }, audioProc := { success := true },
    transcribe := { success := true, transcription := [] } }

/-- C3 (counterexample): with a transcriber returning an empty transcript as a
success, `MediaProcessingAgent.process_file` reports a zero-length success —
`success = True` with an empty transcription — and records
completed/60/transcription_completed in the status store, contradicting the
claim that the stage is treated as failed and never as a zero-length
success. -/
theorem C3_counterexample :
    (mediaAgent_process_file "f1" "/tmp/f1.mp3" wEmptyTranscriptOracle).1.success
      = true ∧
    (mediaAgent_process_file "f1" "/tmp/f1.mp3" wEmptyTranscriptOracle).1.transcription
      = [] ∧
    (statusUpdates
        (mediaAgent_process_file "f1" "/tmp/f1.mp3" wEmptyTranscriptOracle).2).getLast?
      = some ⟨"f1", "completed", 60, "transcription_completed", none⟩ := by
  refine ⟨rfl, rfl, rfl⟩

/-- C3 (amended): an empty transcript returned as a transcriber success is
passed through as a zero-length transcription success — `process_file` returns
`success = True` with the empty text and records completed/60 — and the
emptiness only surfaces later, in the generation stage, where
`_validate_transcription` rejects transcripts shorter than 50 stripped
characters before any provider call is made. -/
theorem C3_empty_transcript_zero_length_success
    (fid fp : String) (o : MediaOracle)
    (hfe : o.fileExists = true)
    (hex : o.isVideo = true → o.extract.success = true)
    (hap : o.audioProc.success = true)
    (htr : o.transcribe.success = true)
    (hempty : o.transcribe.transcription = []) :
    ((mediaAgent_process_file fid fp o).1.success = true ∧
     (mediaAgent_process_file fid fp o).1.transcription = [] ∧
     (statusUpdates (mediaAgent_process_file fid fp o).2).getLast?
       = some ⟨fid, "completed", 60, "transcription_completed", none⟩) ∧
    (∀ (fid2 lvl : String) (g : GenOracle) (t : TransData),
      g.stored = some t → t.transcription = [] →
      (docGenerator_generate fid2 lvl g).1.success = false ∧
      (docGenerator_generate fid2 lvl g).1.message =
        some "Error generating documentation: Transcription is too short or empty" ∧
      llmCallCount (docGenerator_generate fid2 lvl g).2 = 0) := by
  constructor
  · by_cases hvid : o.isVideo = true
    · have hm : mediaAgent_process_file fid fp o =
          ({ success := true, transcription := o.transcribe.transcription },
           [.statusUpdate ⟨fid, "processing", 25, "extraction", none⟩,
            .extractAudioCall,
            .statusUpdate ⟨fid, "processing", 40, "audio_processing", none⟩,
            .audioProcCall,
            .statusUpdate ⟨fid, "processing", 50, "transcription", none⟩,
            .transcribeCall,
            .statusUpdate ⟨fid, "completed", 60, "transcription_completed", none⟩]) := by
        unfold mediaAgent_process_file
        simp [hfe, hvid, hex hvid, hap, htr]
      rw [hm]
      exact ⟨rfl, hempty, rfl⟩
    · have hm : mediaAgent_process_file fid fp o =
          ({ success := true, transcription := o.transcribe.transcription },
           [.statusUpdate ⟨fid, "processing", 25, "extraction", none⟩,
            .statusUpdate ⟨fid, "processing", 40, "audio_processing", none⟩,
            .audioProcCall,
            .statusUpdate ⟨fid, "processing", 50, "transcription", none⟩,
            .transcribeCall,
            .statusUpdate ⟨fid, "completed", 60, "transcription_completed", none⟩]) := by
        unfold mediaAgent_process_file
        simp [hfe, hvid, hap, htr]
      rw [hm]
      exact ⟨rfl, hempty, rfl⟩
  · intro fid2 lvl g t hst hte
    have hguard : t.transcription = [] ∨ (pyStrip t.transcription).length < 50 :=
      Or.inl hte
    unfold docGenerator_generate
    rw [hst]
    simp only [if_pos hguard, llmCallCount, List.filter, List.length]
    exact ⟨trivial, by decide, trivial⟩

/-- Concrete instance of the amended C3: the empty-transcript oracle yields a
zero-length success with completed/60 recorded, and a generator seeing the
stored empty transcript fails without calling the provider. -/
theorem C3_empty_transcript_zero_length_success_witness :
    ((mediaAgent_process_file "f1" "/tmp/f1.mp3" wEmptyTranscriptOracle).1.success
        = true ∧
     (mediaAgent_process_file "f1" "/tmp/f1.mp3" wEmptyTranscriptOracle).1.transcription
        = [] ∧
     (statusUpdates
        (mediaAgent_process_file "f1" "/tmp/f1.mp3" wEmptyTranscriptOracle).2).getLast?
        = some ⟨"f1", "completed", 60, "transcription_completed", none⟩) ∧
    (∀ (fid2 lvl : String) (g : GenOracle) (t : TransData),
      g.stored = some t → t.transcription = [] →
      (docGenerator_generate fid2 lvl g).1.success = false ∧
      (docGenerator_generate fid2 lvl g).1.message =
        some "Error generating documentation: Transcription is too short or empty" ∧
      llmCallCount (docGenerator_generate fid2 lvl g).2 = 0) :=
  C3_empty_transcript_zero_length_success "f1" "/tmp/f1.mp3" wEmptyTranscriptOracle
    rfl (fun h => by cases h) rfl rfl rfl

/-- After a successful validation and media stage, the trace of
`process_media_file` is the validation+media prefix followed by a non-empty
continuation (storage onwards). -/
theorem process_decomposes (fid fp lvl : String) (o : PipelineOracle)
    (hv : o.validation.valid = true)
    (hms : (mediaAgent_process_file fid fp o.media).1.success = true) :
    ∃ post, process_media_file fid fp lvl o =
      ([.statusUpdate ⟨fid, "processing", 10, "validation", none⟩,
        .statusUpdate ⟨fid, "processing", 20, "validation", none⟩, .validateToolCall,
        .statusUpdate ⟨fid, "processing", 25, "transcription", none⟩]
        ++ (mediaAgent_process_file fid fp o.media).2) ++ post ∧
      post ≠ [] := by
  unfold process_media_file fileUploadAgent_validate_file
  rw [if_pos hv]
  simp only [hv, hms, not_true, if_false, ite_false, Bool.not_eq_true, if_neg,
    not_false_eq_true, if_true]
  cases hss : (vectorAgent_store_transcription fid o.storageSvc).1.success with
  | false =>
    simp only [hss, Bool.false_eq_true, not_false_eq_true, if_true]
    refine ⟨[Event.statusUpdate ⟨fid, "processing", 50, "vector_storage", none⟩]
        ++ (vectorAgent_store_transcription fid o.storageSvc).2
        ++ [.statusUpdate ⟨fid, "failed", 50, "vector_storage",
          some ((vectorAgent_store_transcription fid o.storageSvc).1.message.getD
            "Vector storage failed")⟩], ?_, by simp⟩
    simp [List.append_assoc]
  | true =>
    simp only [hss, not_true, Bool.true_eq_false, if_false, ite_false]
    cases hmr : o.mainRetrieve with
    | none =>
      simp only [hmr]
      refine ⟨[Event.statusUpdate ⟨fid, "processing", 50, "vector_storage", none⟩]
          ++ (vectorAgent_store_transcription fid o.storageSvc).2
          ++ [.statusUpdate ⟨fid, "processing", 75, "documentation", none⟩,
              .retrieveTranscriptionCall,
              .statusUpdate ⟨fid, "failed", 75, "documentation",
                some "Failed to retrieve transcription for documentation generation"⟩],
        ?_, by simp⟩
      simp [List.append_assoc]
    | some d =>
      simp only [hmr]
      cases hgg : (documentationAgent_generate fid lvl o.gen).1.success with
      | false =>
        simp only [hgg, Bool.false_eq_true, not_false_eq_true, if_true]
        refine ⟨[Event.statusUpdate ⟨fid, "processing", 50, "vector_storage", none⟩]
            ++ (vectorAgent_store_transcription fid o.storageSvc).2
            ++ [.statusUpdate ⟨fid, "processing", 75, "documentation", none⟩,
                .retrieveTranscriptionCall]
            ++ (documentationAgent_generate fid lvl o.gen).2
            ++ [.statusUpdate ⟨fid, "failed", 75, "documentation",
              some ((documentationAgent_generate fid lvl o.gen).1.message.getD
                "Documentation generation failed")⟩], ?_, by simp⟩
        simp [List.append_assoc]
      | true =>
        simp only [hgg, not_true, Bool.true_eq_false, if_false, ite_false]
        refine ⟨[Event.statusUpdate ⟨fid, "processing", 50, "vector_storage", none⟩]
            ++ (vectorAgent_store_transcription fid o.storageSvc).2
            ++ [.statusUpdate ⟨fid, "processing", 75, "documentation", none⟩,
                .retrieveTranscriptionCall]
            ++ (documentationAgent_generate fid lvl o.gen).2
            ++ [.statusUpdate ⟨fid, "completed", 100, "completed", none⟩],
          ?_, by simp⟩
        simp [List.append_assoc]

/-- C9: whenever the transcription stage completes successfully,
`MediaProcessingAgent.process_file` writes status `completed` with progress 60
and stage `transcription_completed` before the storage and generation stages
run: the trace splits into a prefix ending with that write — containing no
storage, retrieval, provider, render or documentation-store call — after which
the run continues.  Replaying the prefix shows a reader would observe status
`completed` at progress 60 ≠ 100 with no stored document, so `completed` does
not imply progress 100 or an existing document. -/
theorem C9_completed_sixty_midrun (fid fp lvl now : String) (o : PipelineOracle)
    (hv : o.validation.valid = true)
    (hfe : o.media.fileExists = true)
    (hex : o.media.isVideo = true → o.media.extract.success = true)
    (hap : o.media.audioProc.success = true)
    (htr : o.media.transcribe.success = true) :
    ∃ pre post, process_media_file fid fp lvl o = pre ++ post ∧
      (statusUpdates pre).getLast? =
        some ⟨fid, "completed", 60, "transcription_completed", none⟩ ∧
      noStorageOrGenerationCalls pre = true ∧
      docStoredIn pre = false ∧
      (∃ r, getProcessingStatus (replayStatus now pre) fid = some r ∧
        r.status = "completed" ∧ r.progress = 60 ∧ r.progress ≠ 100) ∧
      post ≠ [] := by
  by_cases hvid : o.media.isVideo = true
  · have hm : mediaAgent_process_file fid fp o.media =
        ({ success := true, transcription := o.media.transcribe.transcription },
         [.statusUpdate ⟨fid, "processing", 25, "extraction", none⟩,
          .extractAudioCall,
          .statusUpdate ⟨fid, "processing", 40, "audio_processing", none⟩,
          .audioProcCall,
          .statusUpdate ⟨fid, "processing", 50, "transcription", none⟩,
          .transcribeCall,
          .statusUpdate ⟨fid, "completed", 60, "transcription_completed", none⟩]) := by
      unfold mediaAgent_process_file
      simp [hfe, hvid, hex hvid, hap, htr]
    obtain ⟨post, hpp, hpost⟩ :=
      process_decomposes fid fp lvl o hv (by rw [hm])
    rw [hm] at hpp
    refine ⟨_, post, hpp, rfl, rfl, rfl, ?_, hpost⟩
    refine ⟨_, replay_lookup_last now fid _
      ⟨fid, "completed", 60, "transcription_completed", none⟩ rfl rfl,
      rfl, rfl, by simp⟩
  · have hm : mediaAgent_process_file fid fp o.media =
        ({ success := true, transcription := o.media.transcribe.transcription },
         [.statusUpdate ⟨fid, "processing", 25, "extraction", none⟩,
          .statusUpdate ⟨fid, "processing", 40, "audio_processing", none⟩,
          .audioProcCall,
          .statusUpdate ⟨fid, "processing", 50, "transcription", none⟩,
          .transcribeCall,
          .statusUpdate ⟨fid, "completed", 60, "transcription_completed", none⟩]) := by
      unfold mediaAgent_process_file
      simp [hfe, hvid, hap, htr]
    obtain ⟨post, hpp, hpost⟩ :=
      process_decomposes fid fp lvl o hv (by rw [hm])
    rw [hm] at hpp
    refine ⟨_, post, hpp, rfl, rfl, rfl, ?_, hpost⟩
    refine ⟨_, replay_lookup_last now fid _
      ⟨fid, "completed", 60, "transcription_completed", none⟩ rfl rfl,
      rfl, rfl, by simp⟩

/-- A concrete pipeline oracle for a fully successful run. -/
def happyOracle : PipelineOracle :=
  { validation := { valid := true },
    media :=
      { fileExists := true
        isVideo := false
        extract := { success := true }
        audioProc :=
          { success := true
            message := some "Audio processing completed successfully" }
        transcribe :=
          { success := true
            transcription :=
              ("The quarterly planning meeting covered project scope, budget, " ++
               "risks and delivery timelines in detail.").toList } },
    storageSvc := { success := true },
    mainRetrieve := some
      { transcription :=
          ("The quarterly planning meeting covered project scope, budget, " ++
           "risks and delivery timelines in detail.").toList },
    gen := wGenOracle }

/-- Concrete instance of C9 on the fully successful oracle. -/
theorem C9_completed_sixty_midrun_witness :
    ∃ pre post,
      process_media_file "f1" "/tmp/f1.mp3" "Simple" happyOracle = pre ++ post ∧
      (statusUpdates pre).getLast? =
        some ⟨"f1", "completed", 60, "transcription_completed", none⟩ ∧
      noStorageOrGenerationCalls pre = true ∧
      docStoredIn pre = false ∧
      (∃ r, getProcessingStatus (replayStatus "t0" pre) "f1" = some r ∧
        r.status = "completed" ∧ r.progress = 60 ∧ r.progress ≠ 100) ∧
      post ≠ [] :=
  C9_completed_sixty_midrun "f1" "/tmp/f1.mp3" "Simple" "t0" happyOracle
    rfl rfl (fun _ => rfl) rfl rfl

/-- The final status record of a replayed trace is `failed` at the given
progress and stage, with a non-empty error message present. -/
def finalStatusIs (evs : List Event) (fid now : String) (pr : Int)
    (stage : String) : Prop :=
  ∃ r, getProcessingStatus (replayStatus now evs) fid = some r ∧
    r.status = "failed" ∧ r.progress = pr ∧ r.current_stage = stage ∧
    ∃ msg, r.error = some msg ∧ msg ≠ ""

theorem getD_ne_empty (mo : Option String) (d : String)
    (h : mo ≠ some "") (hd : d ≠ "") : mo.getD d ≠ "" := by
  cases mo with
  | none => simpa using hd
  | some s =>
    simp only [Option.getD_some]
    intro he
    exact h (by rw [he])

theorem statusUpdates_getLast_concat (X : List Event) (u : StatusUpdate) :
    (statusUpdates (X ++ [.statusUpdate u])).getLast? = some u := by
  rw [statusUpdates_append]
  rw [show statusUpdates [Event.statusUpdate u] = [u] from rfl]
  exact List.getLast?_concat _

theorem finalStatus_of_last (now fid : String) (evs : List Event) (pr : Int)
    (stage msg : String)
    (h : (statusUpdates evs).getLast? = some ⟨fid, "failed", pr, stage, some msg⟩)
    (hm : msg ≠ "") : finalStatusIs evs fid now pr stage := by
  refine ⟨_, replay_lookup_last now fid evs _ h rfl, rfl, rfl, rfl, msg, ?_, hm⟩
  simp [strTruthy, hm]

theorem docAgent_fail_message (fid lvl : String) (g : GenOracle)
    (h : (documentationAgent_generate fid lvl g).1.success = false) :
    ∃ m, (documentationAgent_generate fid lvl g).1.message
      = some ("Error in generate_documentation: " ++ m) := by
  cases hr : (docGenerator_generate fid lvl g).1.success with
  | true => simp [documentationAgent_generate, hr] at h
  | false =>
    exact ⟨(docGenerator_generate fid lvl g).1.message.getD
      "Failed to generate documentation", by simp [documentationAgent_generate, hr]⟩

theorem err_prefix_ne_empty (p m : String) (hp : p.length ≠ 0) : p ++ m ≠ "" := by
  intro h
  have hl := congrArg String.length h
  rw [String.length_append] at hl
  simp only [show ("" : String).length = 0 from rfl] at hl
  omega

/-- C4: a run that fails during a stage leaves a final status record with
`status = failed`, a non-empty error message, and progress equal to that
stage's entry-progress constant: 10 for validation, 25 for transcription, 50
for (vector) storage, 75 for generation.  (The stage tools always supply non-empty
failure messages; that fact enters as the `≠ some ""` hypotheses.) -/
theorem C4_failure_progress_stage_accurate (fid fp lvl now : String)
    (o : PipelineOracle) :
    (o.validation.valid = false → o.validation.message ≠ some "" →
      finalStatusIs (process_media_file fid fp lvl o) fid now 10 "validation") ∧
    (o.validation.valid = true →
      (mediaAgent_process_file fid fp o.media).1.success = false →
      (mediaAgent_process_file fid fp o.media).1.message ≠ some "" →
      finalStatusIs (process_media_file fid fp lvl o) fid now 25 "transcription") ∧
    (o.validation.valid = true →
      (mediaAgent_process_file fid fp o.media).1.success = true →
      o.storageSvc.success = false → o.storageSvc.message ≠ some "" →
      finalStatusIs (process_media_file fid fp lvl o) fid now 50 "vector_storage") ∧
    (o.validation.valid = true →
      (mediaAgent_process_file fid fp o.media).1.success = true →
      o.storageSvc.success = true →
      (o.mainRetrieve = none ∨
        (documentationAgent_generate fid lvl o.gen).1.success = false) →
      finalStatusIs (process_media_file fid fp lvl o) fid now 75 "documentation") := by
  refine ⟨?_, ?_, ?_, ?_⟩
  · intro hv hmsg
    have htrace : process_media_file fid fp lvl o =
        [.statusUpdate ⟨fid, "processing", 10, "validation", none⟩,
         .statusUpdate ⟨fid, "processing", 20, "validation", none⟩, .validateToolCall,
         .statusUpdate ⟨fid, "failed", 0, "validation", o.validation.message⟩]
        ++ [.statusUpdate ⟨fid, "failed", 10, "validation",
          some (o.validation.message.getD "File validation failed")⟩] := by
      unfold process_media_file fileUploadAgent_validate_file
      simp [hv]
    rw [htrace]
    exact finalStatus_of_last now fid _ 10 "validation" _
      (statusUpdates_getLast_concat _ _)
      (getD_ne_empty _ _ hmsg (by decide))
  · intro hv hms hmsg
    have htrace : process_media_file fid fp lvl o =
        ([.statusUpdate ⟨fid, "processing", 10, "validation", none⟩,
          .statusUpdate ⟨fid, "processing", 20, "validation", none⟩, .validateToolCall,
          .statusUpdate ⟨fid, "processing", 25, "transcription", none⟩]
         ++ (mediaAgent_process_file fid fp o.media).2)
        ++ [.statusUpdate ⟨fid, "failed", 25, "transcription",
          some ((mediaAgent_process_file fid fp o.media).1.message.getD
            "Transcription failed")⟩] := by
      unfold process_media_file fileUploadAgent_validate_file
      simp [hv, hms, List.append_assoc]
    rw [htrace]
    exact finalStatus_of_last now fid _ 25 "transcription" _
      (statusUpdates_getLast_concat _ _)
      (getD_ne_empty _ _ hmsg (by decide))
  · intro hv hms hss hmsg
    have hsv : vectorAgent_store_transcription fid o.storageSvc =
        ({ success := false, message := some (o.storageSvc.message.getD "Unknown error") },
         [.statusUpdate ⟨fid, "processing", 60, "storage", none⟩, .storeTranscriptionCall,
          .statusUpdate ⟨fid, "failed", 0, "storage",
            some (o.storageSvc.message.getD "Unknown error")⟩]) := by
      unfold vectorAgent_store_transcription
      simp [hss]
    have htrace : process_media_file fid fp lvl o =
        ([.statusUpdate ⟨fid, "processing", 10, "validation", none⟩,
          .statusUpdate ⟨fid, "processing", 20, "validation", none⟩, .validateToolCall,
          .statusUpdate ⟨fid, "processing", 25, "transcription", none⟩]
         ++ (mediaAgent_process_file fid fp o.media).2
         ++ [.statusUpdate ⟨fid, "processing", 50, "vector_storage", none⟩,
             .statusUpdate ⟨fid, "processing", 60, "storage", none⟩,
             .storeTranscriptionCall,
             .statusUpdate ⟨fid, "failed", 0, "storage",
               some (o.storageSvc.message.getD "Unknown error")⟩])
        ++ [.statusUpdate ⟨fid, "failed", 50, "vector_storage",
          some (o.storageSvc.message.getD "Unknown error")⟩] := by
      unfold process_media_file fileUploadAgent_validate_file
      simp [hv, hms, hsv, List.append_assoc]
    rw [htrace]
    exact finalStatus_of_last now fid _ 50 "vector_storage" _
      (statusUpdates_getLast_concat _ _)
      (getD_ne_empty _ _ hmsg (by decide))
  · intro hv hms hss hgen
    have hsv : vectorAgent_store_transcription fid o.storageSvc =
        ({ success := true },
         [.statusUpdate ⟨fid, "processing", 60, "storage", none⟩, .storeTranscriptionCall,
          .statusUpdate ⟨fid, "processing", 70, "vectorization", none⟩]) := by
      unfold vectorAgent_store_transcription
      simp [hss]
    cases hmr : o.mainRetrieve with
    | none =>
      have htrace : process_media_file fid fp lvl o =
          ([.statusUpdate ⟨fid, "processing", 10, "validation", none⟩,
            .statusUpdate ⟨fid, "processing", 20, "validation", none⟩, .validateToolCall,
            .statusUpdate ⟨fid, "processing", 25, "transcription", none⟩]
           ++ (mediaAgent_process_file fid fp o.media).2
           ++ [.statusUpdate ⟨fid, "processing", 50, "vector_storage", none⟩,
               .statusUpdate ⟨fid, "processing", 60, "storage", none⟩,
               .storeTranscriptionCall,
               .statusUpdate ⟨fid, "processing", 70, "vectorization", none⟩,
               .statusUpdate ⟨fid, "processing", 75, "documentation", none⟩,
               .retrieveTranscriptionCall])
          ++ [.statusUpdate ⟨fid, "failed", 75, "documentation",
            some "Failed to retrieve transcription for documentation generation"⟩] := by
        unfold process_media_file fileUploadAgent_validate_file
        simp [hv, hms, hsv, hmr, List.append_assoc]
      rw [htrace]
      exact finalStatus_of_last now fid _ 75 "documentation" _
        (statusUpdates_getLast_concat _ _) (by decide)
    | some d =>
      have hg : (documentationAgent_generate fid lvl o.gen).1.success = false := by
        rcases hgen with hnone | hgf
        · rw [hmr] at hnone; cases hnone
        · exact hgf
      obtain ⟨m, hmmsg⟩ := docAgent_fail_message fid lvl o.gen hg
      have htrace : process_media_file fid fp lvl o =
          ([.statusUpdate ⟨fid, "processing", 10, "validation", none⟩,
            .statusUpdate ⟨fid, "processing", 20, "validation", none⟩, .validateToolCall,
            .statusUpdate ⟨fid, "processing", 25, "transcription", none⟩]
           ++ (mediaAgent_process_file fid fp o.media).2
           ++ [.statusUpdate ⟨fid, "processing", 50, "vector_storage", none⟩,
               .statusUpdate ⟨fid, "processing", 60, "storage", none⟩,
               .storeTranscriptionCall,
               .statusUpdate ⟨fid, "processing", 70, "vectorization", none⟩,
               .statusUpdate ⟨fid, "processing", 75, "documentation", none⟩,
               .retrieveTranscriptionCall]
           ++ (documentationAgent_generate fid lvl o.gen).2)
          ++ [.statusUpdate ⟨fid, "failed", 75, "documentation",
            some ((documentationAgent_generate fid lvl o.gen).1.message.getD
              "Documentation generation failed")⟩] := by
        unfold process_media_file fileUploadAgent_validate_file
        simp [hv, hms, hsv, hmr, hg, List.append_assoc]
      rw [htrace]
      refine finalStatus_of_last now fid _ 75 "documentation" _
        (statusUpdates_getLast_concat _ _) ?_
      rw [hmmsg]
      simp only [Option.getD_some]
      exact err_prefix_ne_empty _ _ (by decide)

/-- A concrete oracle whose transcription tool fails. -/
def wTransFailOracle : PipelineOracle :=
  { validation := { valid := true },
    media :=
      { fileExists := true
        isVideo := false
        extract := { success := true }
        audioProc := { success := true }
        transcribe := { success := false, message := some "whisper crashed" } },
    storageSvc := { success := true },
    mainRetrieve := none,
    gen := wGenOracle }

/-- A concrete oracle whose storage service fails. -/
def wStoreFailOracle : PipelineOracle :=
  { validation := { valid := true },
    media := happyOracle.media,
    storageSvc := { success := false, message := some "disk full" },
    mainRetrieve := none,
    gen := wGenOracle }

/-- A concrete oracle whose generation provider always fails. -/
def wGenFailOracle : PipelineOracle :=
  { validation := { valid := true },
    media := happyOracle.media,
    storageSvc := { success := true },
    mainRetrieve := happyOracle.mainRetrieve,
    gen := wFailingGenOracle }

/-- Concrete instances of all four failure stages of C4. -/
theorem C4_failure_progress_stage_accurate_witness :
    finalStatusIs (process_media_file "f1" "/tmp/f1.mp3" "Simple" wInvalidOracle)
      "f1" "t0" 10 "validation" ∧
    finalStatusIs (process_media_file "f1" "/tmp/f1.mp3" "Simple" wTransFailOracle)
      "f1" "t0" 25 "transcription" ∧
    finalStatusIs (process_media_file "f1" "/tmp/f1.mp3" "Simple" wStoreFailOracle)
      "f1" "t0" 50 "vector_storage" ∧
    finalStatusIs (process_media_file "f1" "/tmp/f1.mp3" "Simple" wGenFailOracle)
      "f1" "t0" 75 "documentation" :=
  ⟨(C4_failure_progress_stage_accurate "f1" "/tmp/f1.mp3" "Simple" "t0"
      wInvalidOracle).1 rfl (by decide),
   (C4_failure_progress_stage_accurate "f1" "/tmp/f1.mp3" "Simple" "t0"
      wTransFailOracle).2.1 rfl rfl (by decide),
   (C4_failure_progress_stage_accurate "f1" "/tmp/f1.mp3" "Simple" "t0"
      wStoreFailOracle).2.2.1 rfl rfl rfl (by decide),
   (C4_failure_progress_stage_accurate "f1" "/tmp/f1.mp3" "Simple" "t0"
      wGenFailOracle).2.2.2 rfl rfl rfl (Or.inr rfl)⟩

/-- The outcome of one generation attempt before the retry policy is applied:
provider failure or empty/short content both count as failures
(`documentation_agent.py:575`). -/
def attemptOutcome (llm : Nat → Except String (List Char)) (a : Nat) :
    Except String (List Char) :=
  match llm a with
  | .ok content =>
      if content ≠ [] ∧ 100 < (pyStrip content).length then .ok content
      else .error "Generated content is too short or empty"
  | .error e => .error e

theorem genRetryGo_ok (fid : String) (llm : Nat → Except String (List Char))
    (a : Nat) (rest : List Nat) (c : List Char)
    (h : attemptOutcome llm a = .ok c) :
    genRetryGo fid llm (a :: rest) =
      (.ok c, [.statusUpdate ⟨fid, "processing", ((80 + 5 * a : Nat) : Int),
        "documentation", none⟩, .llmCall a]) := by
  unfold attemptOutcome at h
  unfold genRetryGo
  rcases hla : llm a with e | c2
  · rw [hla] at h
    simp at h
  · rw [hla] at h
    by_cases hg : c2 ≠ [] ∧ 100 < (pyStrip c2).length
    · simp only [if_pos hg, Except.ok.injEq] at h
      subst h
      simp [hg]
    · simp only [if_neg hg] at h
      simp at h

theorem genRetryGo_err (fid : String) (llm : Nat → Except String (List Char))
    (a : Nat) (rest : List Nat) (e : String)
    (h : attemptOutcome llm a = .error e) :
    genRetryGo fid llm (a :: rest) =
      (if rest = [] then
        (.error e,
         [.statusUpdate ⟨fid, "processing", ((80 + 5 * a : Nat) : Int),
           "documentation", none⟩, .llmCall a])
      else
        ((genRetryGo fid llm rest).1,
         [.statusUpdate ⟨fid, "processing", ((80 + 5 * a : Nat) : Int),
           "documentation", none⟩, .llmCall a] ++ (genRetryGo fid llm rest).2)) := by
  unfold attemptOutcome at h
  rw [genRetryGo]
  rcases hla : llm a with e2 | c2
  · rw [hla] at h
    simp only [Except.error.injEq] at h
    subst h
    rfl
  · rw [hla] at h
    by_cases hg : c2 ≠ [] ∧ 100 < (pyStrip c2).length
    · simp only [if_pos hg] at h
      simp at h
    · simp only [if_neg hg, Except.error.injEq] at h
      subst h
      simp [hg]

/-- When the retry loop succeeds, its status writes are 80, or 80 then 85, or
80, 85 then 90, depending on the successful attempt. -/
theorem genRetry_shape (fid : String) (llm : Nat → Except String (List Char))
    (h : ∃ c, (genContentRetry fid llm).1 = .ok c) :
    progressTrace (genContentRetry fid llm).2 = [80] ∨
    progressTrace (genContentRetry fid llm).2 = [80, 85] ∨
    progressTrace (genContentRetry fid llm).2 = [80, 85, 90] := by
  obtain ⟨c, hc⟩ := h
  rcases h0 : attemptOutcome llm 0 with e0 | c0
  · rcases h1 : attemptOutcome llm 1 with e1 | c1
    · rcases h2 : attemptOutcome llm 2 with e2 | c2
      · exfalso
        rw [genContentRetry, genRetryGo_err fid llm 0 [1, 2] e0 h0,
          if_neg (List.cons_ne_nil _ _)] at hc
        rw [genRetryGo_err fid llm 1 [2] e1 h1,
          if_neg (List.cons_ne_nil _ _)] at hc
        rw [genRetryGo_err fid llm 2 [] e2 h2] at hc
        simp at hc
      · right; right
        rw [genContentRetry, genRetryGo_err fid llm 0 [1, 2] e0 h0,
          if_neg (List.cons_ne_nil _ _)]
        rw [genRetryGo_err fid llm 1 [2] e1 h1,
          if_neg (List.cons_ne_nil _ _)]
        rw [genRetryGo_ok fid llm 2 [] c2 h2]
        simp [progressTrace, statusUpdates]
    · right; left
      rw [genContentRetry, genRetryGo_err fid llm 0 [1, 2] e0 h0,
        if_neg (List.cons_ne_nil _ _)]
      rw [genRetryGo_ok fid llm 1 [2] c1 h1]
      simp [progressTrace, statusUpdates]
  · left
    rw [genContentRetry, genRetryGo_ok fid llm 0 [1, 2] c0 h0]
    simp [progressTrace, statusUpdates]

/-- C1 (counterexample): a fully successful background run — its last status
write is completed/100 — produces the progress sequence
10,20,25,25,40,50,60,50,60,70,75,75,80,100,100, which is *not* non-decreasing
before reaching 100: the transcription stage's completed/60 write is followed
by the orchestrator's vector-storage write at 50. -/
theorem C1_counterexample :
    (statusUpdates (process_media_file "f1" "/tmp/f1.mp3" "Simple" happyOracle)).getLast?
        = some ⟨"f1", "completed", 100, "completed", none⟩ ∧
    ¬ nondecreasingUntil100
        (progressTrace (process_media_file "f1" "/tmp/f1.mp3" "Simple" happyOracle)) := by
  constructor
  · decide
  · unfold nondecreasingUntil100
    intro h
    rw [show (progressTrace
          (process_media_file "f1" "/tmp/f1.mp3" "Simple" happyOracle)).takeWhile
          (fun x => decide (x ≠ 100))
        = [10, 20, 25, 25, 40, 50, 60, 50, 60, 70, 75, 75, 80] from by decide] at h
    norm_num [List.chain'_cons, List.chain'_singleton] at h

/-- C1 (amended): in every successful background run the recorded progress
sequence is non-decreasing except for exactly one adjacent drop, from the
transcription stage's completed/60 write to the orchestrator's 50 at
vector-storage entry: its descent list is exactly [(60, 50)]. -/
theorem C1_successful_run_single_drop (fid fp lvl : String) (o : PipelineOracle)
    (hv : o.validation.valid = true)
    (hfe : o.media.fileExists = true)
    (hex : o.media.isVideo = true → o.media.extract.success = true)
    (hap : o.media.audioProc.success = true)
    (htr : o.media.transcribe.success = true)
    (hss : o.storageSvc.success = true)
    (hmr : o.mainRetrieve ≠ none)
    (t : TransData)
    (hst : o.gen.stored = some t)
    (htne : t.transcription ≠ [])
    (htlen : ¬ (pyStrip t.transcription).length < 50)
    (hsv : o.gen.saveErr = none)
    (c : List Char)
    (hok : (genContentRetry fid o.gen.llm).1 = .ok c) :
    descents (progressTrace (process_media_file fid fp lvl o)) = [(60, 50)] := by
  have hguard : ¬ (t.transcription = [] ∨ (pyStrip t.transcription).length < 50) :=
    fun hh => hh.elim htne htlen
  have hwrap : documentationAgent_generate fid lvl o.gen =
      ({ success := true, documentation_id := some o.gen.docId,
         quality_score := some (validate_content c (effectiveDocLevel lvl)).2.1 },
       [.statusUpdate ⟨fid, "processing", 75, "documentation", none⟩,
        .retrieveTranscriptionCall] ++ (genContentRetry fid o.gen.llm).2
         ++ [.saveDocFileCall, .renderPdfCall, .storeDocCall o.gen.docId,
             .statusUpdate ⟨fid, "completed", 100, "documentation", none⟩]) := by
    have hgen : docGenerator_generate fid lvl o.gen =
        ({ success := true, documentation_id := some o.gen.docId,
           quality_score := some (validate_content c (effectiveDocLevel lvl)).2.1 },
         [.retrieveTranscriptionCall] ++ (genContentRetry fid o.gen.llm).2
           ++ [.saveDocFileCall, .renderPdfCall, .storeDocCall o.gen.docId,
               .statusUpdate ⟨fid, "completed", 100, "documentation", none⟩]) := by
      unfold docGenerator_generate
      rw [hst]
      simp only [if_neg hguard, hok, hsv]
      simp [List.append_assoc]
    unfold documentationAgent_generate
    rw [hgen]
    simp [List.append_assoc]
  have hsvv : vectorAgent_store_transcription fid o.storageSvc =
      ({ success := true },
       [.statusUpdate ⟨fid, "processing", 60, "storage", none⟩, .storeTranscriptionCall,
        .statusUpdate ⟨fid, "processing", 70, "vectorization", none⟩]) := by
    unfold vectorAgent_store_transcription
    simp [hss]
  rcases hmrv : o.mainRetrieve with _ | d
  · exact absurd hmrv hmr
  by_cases hvid : o.media.isVideo = true
  · have hm : mediaAgent_process_file fid fp o.media =
        ({ success := true, transcription := o.media.transcribe.transcription },
         [.statusUpdate ⟨fid, "processing", 25, "extraction", none⟩,
          .extractAudioCall,
          .statusUpdate ⟨fid, "processing", 40, "audio_processing", none⟩,
          .audioProcCall,
          .statusUpdate ⟨fid, "processing", 50, "transcription", none⟩,
          .transcribeCall,
          .statusUpdate ⟨fid, "completed", 60, "transcription_completed", none⟩]) := by
      unfold mediaAgent_process_file
      simp [hfe, hvid, hex hvid, hap, htr]
    have htrace : progressTrace (process_media_file fid fp lvl o)
        = [10, 20, 25, 25, 40, 50, 60, 50, 60, 70, 75, 75]
          ++ progressTrace (genContentRetry fid o.gen.llm).2 ++ [100, 100] := by
      unfold process_media_file fileUploadAgent_validate_file
      simp [hv, hm, hsvv, hmrv, hwrap, progressTrace, statusUpdates,
        List.filterMap_append, List.map_append, List.append_assoc]
    rw [htrace]
    rcases genRetry_shape fid o.gen.llm ⟨c, hok⟩ with hG | hG | hG <;>
      rw [hG] <;> decide
  · have hm : mediaAgent_process_file fid fp o.media =
        ({ success := true, transcription := o.media.transcribe.transcription },
         [.statusUpdate ⟨fid, "processing", 25, "extraction", none⟩,
          .statusUpdate ⟨fid, "processing", 40, "audio_processing", none⟩,
          .audioProcCall,
          .statusUpdate ⟨fid, "processing", 50, "transcription", none⟩,
          .transcribeCall,
          .statusUpdate ⟨fid, "completed", 60, "transcription_completed", none⟩]) := by
      unfold mediaAgent_process_file
      simp [hfe, hvid, hap, htr]
    have htrace : progressTrace (process_media_file fid fp lvl o)
        = [10, 20, 25, 25, 40, 50, 60, 50, 60, 70, 75, 75]
          ++ progressTrace (genContentRetry fid o.gen.llm).2 ++ [100, 100] := by
      unfold process_media_file fileUploadAgent_validate_file
      simp [hv, hm, hsvv, hmrv, hwrap, progressTrace, statusUpdates,
        List.filterMap_append, List.map_append, List.append_assoc]
    rw [htrace]
    rcases genRetry_shape fid o.gen.llm ⟨c, hok⟩ with hG | hG | hG <;>
      rw [hG] <;> decide

/-- Concrete instance of the amended C1 on the fully successful oracle. -/
theorem C1_successful_run_single_drop_witness :
    descents (progressTrace
      (process_media_file "f1" "/tmp/f1.mp3" "Simple" happyOracle)) = [(60, 50)] :=
  C1_successful_run_single_drop "f1" "/tmp/f1.mp3" "Simple" happyOracle
    rfl rfl (fun _ => rfl) rfl rfl rfl (by decide)
    { transcription :=
        ("The quarterly planning meeting covered project scope, budget, " ++
         "risks and delivery timelines in detail.").toList }
    rfl (by decide) (by decide) rfl (List.replicate 110 'a') rfl
